import Mathlib

/-!
Shallow embedding of `src/src/webviews/Webview.ts` (the `WebviewEditor`
panel controller of the vsc-material-theme repository).

The controller composes with three external collaborators (per the spec's §2):
the PanelHost (vscode `window` / `WebviewPanel`), the ContentSource
(`Workspace.openTextDocument`) and the SettingsStore (`getCustomSettings`).
Those live outside the repository's source, so one step of interaction with
them is modelled by a `Host` record giving the collaborator answers for that
step: the content-resolution result, the host channel's boolean delivery
confirmation, the current settings snapshot, and the fresh handles the host
hands out on panel creation.  Calls the controller makes outward (panel
creation, html replacement, reveal, message posts, disposal-unit releases,
settings application) are recorded in an effect trace.
-/

set_option autoImplicit false

namespace Webview

/-- Configuration snapshot (`IThemeCustomSettings`): owned by the external
SettingsStore and opaque to this core; only its identity matters here. -/
structure IThemeCustomSettings where
  snapshot : Nat
deriving DecidableEq, Repr

/-- Settings scope of a `saveSettings` message (`'user' | 'workspace'`). -/
inductive Scope
  | user
  | workspace
deriving DecidableEq, Repr

/-- Invalidation classes: `type Invalidates = 'all' | 'config' | undefined`.
The `undefined` case is represented as `none` of `Option Invalidates`. -/
inductive Invalidates
  | all
  | config
deriving DecidableEq, Repr

/-- Wire messages: `type Message = SaveSettingsMessage | SettingsChangedMessage`.
The `any` values of the `changes` map are modelled as opaque strings. -/
inductive Message
  | settingsChanged (config : IThemeCustomSettings)
  | saveSettings (changes : List (String × String)) (removes : List String)
      (scope : Scope) (uri : String)
deriving DecidableEq, Repr

/-- Raw inbound events delivered by the host channel to `onMessageReceived`.
At runtime the panel content may send anything, so besides the two declared
message shapes an event may carry an unknown tag; `onMessageReceived` is also
called with `null`, modelled as `none` of `Option RawEvent` at the call site. -/
inductive RawEvent
  | saveSettings (changes : List (String × String)) (removes : List String)
      (scope : Scope) (uri : String)
  | settingsChanged (config : IThemeCustomSettings)
  | other (tag : String)
deriving DecidableEq, Repr

/-- Outward calls the controller makes to its collaborators, recorded as a
trace.  `createPanel` records the panel-creation request together with the
four capability flags passed to `window.createWebviewPanel`; `releaseGroup`
records one invocation of a disposal unit's release (`disposablePanel.dispose()`);
`applySettings` would record a delegation to the SettingsStore. -/
inductive Effect
  | createPanel (id title : String)
      (retainContextWhenHidden enableFindWidget enableCommandUris enableScripts : Bool)
  | setHtml (html : String)
  | reveal
  | post (m : Message)
  | releaseGroup (g : Nat)
  | applySettings (changes : List (String × String)) (removes : List String)
      (scope : Scope) (uri : String)
deriving DecidableEq, Repr

/-- One step's answers from the external collaborators: `content` is the
ContentSource resolution of the controller's `filename` (`none` = resource
missing/unreadable, the fetch rejects); `deliver` is the host channel's
delivery confirmation for a posted message; `settings` is the SettingsStore
snapshot `getCustomSettings()` returns; `freshPanel` and `freshGroup` are the
handles the host assigns to a newly created panel and its disposal unit. -/
structure Host where
  content : Option String
  deliver : Bool
  settings : IThemeCustomSettings
  freshPanel : Nat
  freshGroup : Nat
deriving DecidableEq, Repr

/-- The controller state: the three abstract identity accessors (`filename`,
`id`, `title`, constant per concrete subclass) plus the three mutable fields
`panel`, `disposablePanel` and `invalidateOnVisible` of `WebviewEditor`.
Panel and disposal-unit handles are opaque `Nat` tokens issued by the host. -/
structure WebviewEditor where
  filename : String
  id : String
  title : String
  panel : Option Nat
  disposablePanel : Option Nat
  invalidateOnVisible : Option Invalidates
deriving DecidableEq, Repr

/-- A freshly constructed controller: all three mutable fields undefined. -/
def initial (filename id title : String) : WebviewEditor :=
  { filename := filename, id := id, title := title,
    panel := none, disposablePanel := none, invalidateOnVisible := none }

/-- Embedding of `getHtml`: resolve the controller's `filename` through the
ContentSource; a missing/unreadable resource rejects (`Except.error`). -/
def getHtml (host : Host) : Except Unit String :=
  match host.content with
  | some html => Except.ok html
  | none => Except.error ()

/-- Embedding of `postMessage(message, invalidates = 'all')`.  Returns the new
state, the messages handed to the host channel, and the result reported back
to the caller.  The source's default argument `'all'` is passed explicitly by
callers here.  Per the spec's PanelHost contract the host channel reports
delivery by a boolean (`host.deliver`); the source checks
`!result && this.invalidateOnVisible !== 'all'` and then records `invalidates`
as the pending invalidation. -/
def postMessage (host : Host) (s : WebviewEditor) (message : Message)
    (invalidates : Option Invalidates) : WebviewEditor × List Effect × Bool :=
  match s.panel with
  | none => (s, [], false)
  | some _ =>
    let result := host.deliver
    let s' :=
      if result = false ∧ s.invalidateOnVisible ≠ some Invalidates.all then
        { s with invalidateOnVisible := invalidates }
      else s
    (s', [Effect.post message], result)

/-- Embedding of `postUpdatedConfiguration`: posts a `settingsChanged` message
built from a fresh SettingsStore snapshot, with invalidation class `'config'`. -/
def postUpdatedConfiguration (host : Host) (s : WebviewEditor) :
    WebviewEditor × List Effect × Bool :=
  postMessage host s (Message.settingsChanged host.settings) (some Invalidates.config)

/-- Embedding of `dispose()`: releases the disposal unit if present.  The
source clears neither `disposablePanel` nor `panel` here. -/
def dispose (s : WebviewEditor) : WebviewEditor × List Effect :=
  match s.disposablePanel with
  | some g => (s, [Effect.releaseGroup g])
  | none => (s, [])

/-- Embedding of `onPanelDisposed`: releases the disposal unit if present and
clears `panel`.  The source does not clear `disposablePanel`. -/
def onPanelDisposed (s : WebviewEditor) : WebviewEditor × List Effect :=
  match s.disposablePanel with
  | some g => ({ s with panel := none }, [Effect.releaseGroup g])
  | none => ({ s with panel := none }, [])

/-- Embedding of `show()` (named `show'` because `show` is a Lean keyword).
Fetches the HTML first; a content-resolution failure rejects with the state
untouched.  With an existing panel: replace its html and reveal it.  Without:
request panel creation with the four fixed capability flags, build the
disposal unit (panel + three subscriptions) and set the html. -/
def show' (host : Host) (s : WebviewEditor) :
    Except Unit (WebviewEditor × List Effect) :=
  match getHtml host with
  | Except.error e => Except.error e
  | Except.ok html =>
    match s.panel with
    | some _ => Except.ok (s, [Effect.setHtml html, Effect.reveal])
    | none =>
      Except.ok
        ({ s with panel := some host.freshPanel,
                  disposablePanel := some host.freshGroup },
         [Effect.createPanel s.id s.title true true true true, Effect.setHtml html])

/-- Total wrapper of `show'` for sequencing: a rejected fetch leaves the state
unchanged and produces no outward call (the rejection goes to the caller). -/
def showStep (host : Host) (s : WebviewEditor) : WebviewEditor × List Effect :=
  match show' host s with
  | Except.ok r => r
  | Except.error _ => (s, [])

/-- Embedding of `onViewStateChanged(event)`; `visible` is
`event.webviewPanel.visible`.  If nothing is pending or the panel is not
visible: no-op.  Otherwise snapshot and clear `invalidateOnVisible`, then
`'config'` pushes a fresh configuration and any other pending value runs
`show()`.  The source's `console.log` trace is not part of the core state. -/
def onViewStateChanged (host : Host) (s : WebviewEditor) (visible : Bool) :
    WebviewEditor × List Effect :=
  match s.invalidateOnVisible, visible with
  | none, _ => (s, [])
  | some _, false => (s, [])
  | some invalidContext, true =>
    let s1 := { s with invalidateOnVisible := none }
    match invalidContext with
    | Invalidates.config =>
      let r := postUpdatedConfiguration host s1
      (r.1, r.2.1)
    | Invalidates.all => showStep host s1

/-- Embedding of `onMessageReceived(event)`.  `null` is ignored.  The
`'saveSettings'` branch of the source is a `TODO: update settings` stub that
returns without calling the SettingsStore (no `Effect.applySettings` is
emitted); every other tag falls to the `default` branch and returns. -/
def onMessageReceived (s : WebviewEditor) (event : Option RawEvent) :
    WebviewEditor × List Effect :=
  match event with
  | none => (s, [])
  | some (RawEvent.saveSettings _ _ _ _) => (s, [])
  | some (RawEvent.settingsChanged _) => (s, [])
  | some (RawEvent.other _) => (s, [])

/-- The controller's operations, for stating invariants over every entry
point (spec §4.1). -/
inductive Op
  | opShow
  | opDispose
  | opPanelDisposed
  | opViewStateChanged (visible : Bool)
  | opPost (m : Message) (inv : Option Invalidates)
  | opPostConfig
  | opMsgReceived (e : Option RawEvent)

/-- One controller operation as a state-and-trace step. -/
def step (host : Host) (op : Op) (s : WebviewEditor) : WebviewEditor × List Effect :=
  match op with
  | Op.opShow => showStep host s
  | Op.opDispose => dispose s
  | Op.opPanelDisposed => onPanelDisposed s
  | Op.opViewStateChanged v => onViewStateChanged host s v
  | Op.opPost m inv =>
    let r := postMessage host s m inv
    (r.1, r.2.1)
  | Op.opPostConfig =>
    let r := postUpdatedConfiguration host s
    (r.1, r.2.1)
  | Op.opMsgReceived e => onMessageReceived s e

/-- Run a sequence of `show()` calls to completion, one host record per call. -/
def runShows (hosts : List Host) (s : WebviewEditor) : WebviewEditor × List Effect :=
  match hosts with
  | [] => (s, [])
  | h :: t =>
    let r := showStep h s
    let r2 := runShows t r.1
    (r2.1, r.2 ++ r2.2)

/-- Whether an effect is a panel-creation request to the host. -/
def isCreate : Effect → Bool
  | Effect.createPanel _ _ _ _ _ _ => true
  | _ => false

/-- Number of panel-creation requests in a trace. -/
def countCreate (effs : List Effect) : Nat :=
  (effs.filter isCreate).length

/-- The spec's claimed linkage invariant: `disposablePanel` is non-null iff
`panel` is non-null. -/
abbrev linkedInvariant (s : WebviewEditor) : Prop :=
  s.disposablePanel.isSome = s.panel.isSome

/-- The direction of the linkage invariant the code actually maintains:
a live panel always has a disposal unit. -/
abbrev panelImpliesGroup (s : WebviewEditor) : Prop :=
  s.panel.isSome = true → s.disposablePanel.isSome = true

/-- Whether an inbound event is a `saveSettings` message. -/
def isSaveSettings : Option RawEvent → Bool
  | some (RawEvent.saveSettings _ _ _ _) => true
  | _ => false

/-- A concrete host record used by the concrete runs below. -/
def host0 : Host :=
  { content := some "<h1>A</h1>", deliver := true,
    settings := { snapshot := 0 }, freshPanel := 0, freshGroup := 0 }

/-- A concrete freshly constructed controller. -/
def sInit : WebviewEditor := initial "settings.html" "materialTheme" "Material Theme"

/-- The concrete controller after one successful `show()` from `sInit`. -/
def sShown : WebviewEditor := (showStep host0 sInit).1

/-- A concrete host record whose channel reports delivery failure. -/
def hostFail : Host :=
  { content := some "<h1>A</h1>", deliver := false,
    settings := { snapshot := 1 }, freshPanel := 1, freshGroup := 1 }

/-- A concrete host record whose content resolution fails. -/
def hostNoContent : Host :=
  { content := none, deliver := true,
    settings := { snapshot := 0 }, freshPanel := 2, freshGroup := 2 }

/-! ### Helper lemmas -/

/-- Creation counts add up across concatenated traces. -/
theorem countCreate_append (a b : List Effect) :
    countCreate (a ++ b) = countCreate a + countCreate b := by
  simp [countCreate, List.filter_append]

/-- The fields `postMessage` can touch do not include `panel` or
`disposablePanel`. -/
theorem postMessage_frame (host : Host) (s : WebviewEditor) (m : Message)
    (inv : Option Invalidates) :
    (postMessage host s m inv).1.panel = s.panel ∧
    (postMessage host s m inv).1.disposablePanel = s.disposablePanel := by
  cases hp : s.panel with
  | none => simp [postMessage, hp]
  | some p =>
    simp only [postMessage, hp]
    constructor <;> (split <;> simp [hp])

/-- With a panel present, `show()` takes the reveal path: the controller state
is unchanged and no creation request is issued. -/
theorem showStep_panel_some (host : Host) (s : WebviewEditor)
    (hp : s.panel.isSome = true) :
    (showStep host s).1 = s ∧ countCreate (showStep host s).2 = 0 := by
  cases hc : host.content with
  | none => simp [showStep, show', getHtml, hc, countCreate]
  | some html =>
    cases hpp : s.panel with
    | none => rw [hpp] at hp; simp at hp
    | some p => simp [showStep, show', getHtml, hc, hpp, countCreate, isCreate]

/-- With a panel present, a whole sequence of `show()` calls issues no
creation request. -/
theorem runShows_countCreate_zero (hosts : List Host) (s : WebviewEditor)
    (hp : s.panel.isSome = true) :
    countCreate (runShows hosts s).2 = 0 := by
  induction hosts generalizing s with
  | nil => simp [runShows, countCreate]
  | cons h t ih =>
    have hstep := showStep_panel_some h s hp
    simp only [runShows, countCreate_append]
    rw [hstep.2, hstep.1]
    simpa using ih s hp

/-- `showStep` preserves the direction of the linkage invariant that the code
maintains. -/
theorem showStep_panelImpliesGroup (host : Host) (s : WebviewEditor)
    (h : panelImpliesGroup s) : panelImpliesGroup (showStep host s).1 := by
  cases hc : host.content with
  | none => simpa [showStep, show', getHtml, hc] using h
  | some html =>
    cases hpp : s.panel with
    | none => simp [showStep, show', getHtml, hc, hpp]
    | some p => simpa [showStep, show', getHtml, hc, hpp] using h

/-- Without a panel and with content available, `show()` issues one creation
request, builds the disposal unit and sets the html. -/
theorem showStep_creates (host : Host) (s : WebviewEditor) (html : String)
    (hp : s.panel = none) (hc : host.content = some html) :
    showStep host s =
      ({ s with panel := some host.freshPanel,
                disposablePanel := some host.freshGroup },
       [Effect.createPanel s.id s.title true true true true,
        Effect.setHtml html]) := by
  simp [showStep, show', getHtml, hc, hp]

/-- Any sequence of `show()` calls issues at most one creation request. -/
theorem runShows_countCreate_le_one (hosts : List Host) (s : WebviewEditor) :
    countCreate (runShows hosts s).2 ≤ 1 := by
  induction hosts generalizing s with
  | nil => simp [runShows, countCreate]
  | cons h t ih =>
    cases hp : s.panel with
    | some p =>
      have hz := runShows_countCreate_zero (h :: t) s (by simp [hp])
      rw [hz]
      exact Nat.zero_le 1
    | none =>
      cases hc : h.content with
      | none =>
        have hstep : showStep h s = (s, []) := by
          simp [showStep, show', getHtml, hc]
        simp only [runShows, countCreate_append, hstep]
        simpa [countCreate] using ih s
      | some html =>
        simp only [runShows, countCreate_append, showStep_creates h s html hp hc]
        have hz := runShows_countCreate_zero t
          { s with panel := some h.freshPanel,
                   disposablePanel := some h.freshGroup } (by simp)
        have hcc : countCreate
            [Effect.createPanel s.id s.title true true true true,
             Effect.setHtml html] = 1 := rfl
        rw [hz, hcc]

/-- From a panel-free state, a nonempty sequence of `show()` calls whose
content fetches all succeed issues exactly one creation request. -/
theorem runShows_countCreate_one (hosts : List Host) (s : WebviewEditor)
    (hp : s.panel = none) (hall : ∀ h ∈ hosts, h.content.isSome = true)
    (hne : hosts ≠ []) :
    countCreate (runShows hosts s).2 = 1 := by
  cases hosts with
  | nil => exact absurd rfl hne
  | cons h t =>
    obtain ⟨html, hch⟩ : ∃ html, h.content = some html := by
      have hh := hall h (by simp)
      cases hcc : h.content with
      | none => rw [hcc] at hh; simp at hh
      | some html => exact ⟨html, rfl⟩
    simp only [runShows, countCreate_append, showStep_creates h s html hp hch]
    have hz := runShows_countCreate_zero t
      { s with panel := some h.freshPanel,
               disposablePanel := some h.freshGroup } (by simp)
    have hcc : countCreate
        [Effect.createPanel s.id s.title true true true true,
         Effect.setHtml html] = 1 := rfl
    rw [hz, hcc]

/-! ### Claim theorems -/

/-- C1: while a panel exists, `postMessage` on failed delivery reports the
failure back, records the requested invalidation class as pending when the
pending invalidation is not already `all`, and never downgrades a pending
`all` (so with pending `all`, posting with class `config` leaves `all`). -/
theorem postMessage_pending_no_downgrade (host : Host) (s : WebviewEditor)
    (m : Message) (inv : Option Invalidates) (p : Nat)
    (hp : s.panel = some p) (hd : host.deliver = false) :
    (postMessage host s m inv).2.2 = false ∧
    (s.invalidateOnVisible ≠ some Invalidates.all →
      (postMessage host s m inv).1.invalidateOnVisible = inv) ∧
    (s.invalidateOnVisible = some Invalidates.all →
      (postMessage host s m inv).1.invalidateOnVisible = some Invalidates.all) := by
  by_cases hall : s.invalidateOnVisible = some Invalidates.all <;>
    simp [postMessage, hp, hd, hall]

/-- C1 witness: with pending `config`-free state `sShown` and a failing
channel, posting with class `config` records `config` as pending. -/
theorem postMessage_pending_no_downgrade_witness :
    (postMessage hostFail sShown (Message.settingsChanged { snapshot := 1 })
        (some Invalidates.config)).1.invalidateOnVisible = some Invalidates.config :=
  (postMessage_pending_no_downgrade hostFail sShown
      (Message.settingsChanged { snapshot := 1 }) (some Invalidates.config) 0
      (by decide) (by decide)).2.1 (by decide)

/-- C2: `onViewStateChanged` with the panel visible: pending `config` sends
exactly one outbound `settingsChanged` message built from the fresh settings
snapshot, and the whole step factors through the state with the pending
invalidation cleared before the push; pending `all` runs `show()` on the
state with the pending invalidation cleared first. -/
theorem onViewStateChanged_visible_pending (host : Host) (s : WebviewEditor)
    (p : Nat) (hp : s.panel = some p) :
    (s.invalidateOnVisible = some Invalidates.config →
      (onViewStateChanged host s true).2 =
        [Effect.post (Message.settingsChanged host.settings)] ∧
      onViewStateChanged host s true =
        ((postUpdatedConfiguration host { s with invalidateOnVisible := none }).1,
         (postUpdatedConfiguration host { s with invalidateOnVisible := none }).2.1)) ∧
    (s.invalidateOnVisible = some Invalidates.all →
      onViewStateChanged host s true =
        showStep host { s with invalidateOnVisible := none }) := by
  constructor
  · intro h
    constructor
    · simp [onViewStateChanged, h, postUpdatedConfiguration, postMessage, hp]
    · simp [onViewStateChanged, h]
  · intro h
    simp [onViewStateChanged, h]

/-- C2 witness: from `sShown` with pending `config`, a visible view-state
change emits exactly one `settingsChanged` message. -/
theorem onViewStateChanged_visible_pending_witness :
    (onViewStateChanged host0
        { sShown with invalidateOnVisible := some Invalidates.config } true).2 =
      [Effect.post (Message.settingsChanged host0.settings)] :=
  ((onViewStateChanged_visible_pending host0
      { sShown with invalidateOnVisible := some Invalidates.config } 0
      (by decide)).1 (by decide)).1

/-- C3: evaluation of the code at a `saveSettings` message: the handler's
`saveSettings` branch is a TODO stub, so no `applySettings` delegation to the
SettingsStore is emitted and the state is unchanged — the claimed forwarding
of `(changes, removes, scope, uri)` does not happen. -/
theorem onMessageReceived_saveSettings_noDelegation (s : WebviewEditor)
    (changes : List (String × String)) (removes : List String)
    (scope : Scope) (uri : String) :
    onMessageReceived s
      (some (RawEvent.saveSettings changes removes scope uri)) = (s, []) := rfl

/-- C7: a content-resolution failure makes `show()` reject, with the
controller state untouched and no outward call (in particular no
panel-creation request), since the fetch happens before creation. -/
theorem show_content_failure (host : Host) (s : WebviewEditor)
    (h : host.content = none) :
    show' host s = Except.error () ∧ showStep host s = (s, []) := by
  simp [show', showStep, getHtml, h]

/-- C7 witness: with the failing content source, `show()` from the initial
state rejects and changes nothing. -/
theorem show_content_failure_witness :
    show' hostNoContent sInit = Except.error () ∧
    showStep hostNoContent sInit = (sInit, []) :=
  show_content_failure hostNoContent sInit (by decide)

/-- C8: `postMessage` without a panel reports failure, hands nothing to the
host channel and leaves the whole controller state unchanged. -/
theorem postMessage_no_panel (host : Host) (s : WebviewEditor) (m : Message)
    (inv : Option Invalidates) (h : s.panel = none) :
    postMessage host s m inv = (s, [], false) := by
  simp [postMessage, h]

/-- C8 witness: posting from the panel-free initial state is a silent
failure. -/
theorem postMessage_no_panel_witness :
    postMessage host0 sInit (Message.settingsChanged { snapshot := 0 })
      (some Invalidates.all) = (sInit, [], false) :=
  postMessage_no_panel host0 sInit (Message.settingsChanged { snapshot := 0 })
    (some Invalidates.all) (by decide)

/-- C9: a null inbound event or one that is not a `saveSettings` message is
ignored: no delegated call, no outbound message, no error, state unchanged. -/
theorem onMessageReceived_ignores_non_save (s : WebviewEditor)
    (e : Option RawEvent) (h : isSaveSettings e = false) :
    onMessageReceived s e = (s, []) := by
  match e with
  | none => rfl
  | some (RawEvent.saveSettings c r sc u) => exact absurd h (by simp [isSaveSettings])
  | some (RawEvent.settingsChanged c) => rfl
  | some (RawEvent.other t) => rfl

/-- C9 witness: an unknown-tagged event is ignored from the initial state. -/
theorem onMessageReceived_ignores_non_save_witness :
    onMessageReceived sInit (some (RawEvent.other "unknown")) = (sInit, []) :=
  onMessageReceived_ignores_non_save sInit (some (RawEvent.other "unknown"))
    (by decide)

/-- C10: `dispose()` does not touch `panel` (only `onPanelDisposed` clears
it), so a `show()` after `dispose()` takes the reveal path on the previously
created panel and issues no creation request. -/
theorem dispose_preserves_panel (s : WebviewEditor) (p : Nat)
    (hp : s.panel = some p) (host : Host) (html : String)
    (hc : host.content = some html) :
    (dispose s).1.panel = some p ∧
    show' host (dispose s).1 =
      Except.ok ((dispose s).1, [Effect.setHtml html, Effect.reveal]) ∧
    countCreate (showStep host (dispose s).1).2 = 0 := by
  have h1 : (dispose s).1 = s := by
    cases hd : s.disposablePanel <;> simp [dispose, hd]
  rw [h1]
  refine ⟨hp, ?_, ?_⟩
  · simp [show', getHtml, hc, hp]
  · simp [showStep, show', getHtml, hc, hp, countCreate, isCreate]

/-- C10 witness: disposing the shown controller keeps its panel, and the next
`show()` only replaces the html and reveals. -/
theorem dispose_preserves_panel_witness :
    (dispose sShown).1.panel = some 0 ∧
    show' host0 (dispose sShown).1 =
      Except.ok ((dispose sShown).1, [Effect.setHtml "<h1>A</h1>", Effect.reveal]) ∧
    countCreate (showStep host0 (dispose sShown).1).2 = 0 :=
  dispose_preserves_panel sShown 0 (by decide) host0 "<h1>A</h1>" (by decide)

/-- C4: across any sequence of completed `show()` calls with no intervening
disposal, at most one panel-creation request is issued; exactly one when the
sequence is nonempty, starts without a panel and every content fetch
succeeds; and once a panel exists a `show()` only replaces the html and
reveals the existing panel. -/
theorem show_creates_at_most_one (hosts : List Host) (s : WebviewEditor) :
    countCreate (runShows hosts s).2 ≤ 1 ∧
    (s.panel = none → hosts ≠ [] →
      (∀ h ∈ hosts, h.content.isSome = true) →
      countCreate (runShows hosts s).2 = 1) ∧
    (∀ host p html, s.panel = some p → host.content = some html →
      show' host s = Except.ok (s, [Effect.setHtml html, Effect.reveal])) := by
  refine ⟨runShows_countCreate_le_one hosts s, ?_, ?_⟩
  · intro hp hne hall
    exact runShows_countCreate_one hosts s hp hall hne
  · intro host p html hp hc
    simp [show', getHtml, hc, hp]

/-- C4 witness: two consecutive `show()` calls from the initial state issue
exactly one creation request. -/
theorem show_creates_at_most_one_witness :
    countCreate (runShows [host0, hostFail] sInit).2 = 1 :=
  (show_creates_at_most_one [host0, hostFail] sInit).2.1 (by decide) (by decide)
    (by decide)

/-- C5 counterexample: after a successful `show()`, the claimed invariant
`disposablePanel` non-null iff `panel` non-null holds, but `onPanelDisposed`
breaks it: the panel reference is cleared while the disposal-unit reference
is left set, so the invariant is not preserved by every operation. -/
theorem linkedInvariant_cex :
    linkedInvariant sShown ∧ ¬ linkedInvariant (onPanelDisposed sShown).1 := by
  decide

/-- C5 amended: the direction of the linkage the code maintains — a live
panel always has a disposal unit — holds initially and is preserved by every
operation; the converse fails after `onPanelDisposed`. -/
theorem panelImpliesGroup_preserved (f i t : String) (host : Host) (op : Op)
    (s : WebviewEditor) (h : panelImpliesGroup s) :
    panelImpliesGroup (initial f i t) ∧ panelImpliesGroup (step host op s).1 := by
  refine ⟨by simp [initial], ?_⟩
  cases op with
  | opShow => exact showStep_panelImpliesGroup host s h
  | opDispose =>
    have h1 : (dispose s).1 = s := by
      cases hd : s.disposablePanel <;> simp [dispose, hd]
    simpa [step, h1] using h
  | opPanelDisposed =>
    cases hd : s.disposablePanel <;> simp [step, onPanelDisposed, hd]
  | opViewStateChanged v =>
    cases hiv : s.invalidateOnVisible with
    | none => simpa [step, onViewStateChanged, hiv] using h
    | some c =>
      cases v with
      | false => simpa [step, onViewStateChanged, hiv] using h
      | true =>
        cases c with
        | config =>
          have hf := postMessage_frame host { s with invalidateOnVisible := none }
            (Message.settingsChanged host.settings) (some Invalidates.config)
          simp only [step, onViewStateChanged, hiv, postUpdatedConfiguration]
          intro hp
          rw [hf.2]
          rw [hf.1] at hp
          exact h hp
        | all =>
          have hs := showStep_panelImpliesGroup host
            { s with invalidateOnVisible := none } (by simpa using h)
          simpa [step, onViewStateChanged, hiv] using hs
  | opPost m inv =>
    have hf := postMessage_frame host s m inv
    simp only [step]
    intro hp
    rw [hf.2]
    rw [hf.1] at hp
    exact h hp
  | opPostConfig =>
    have hf := postMessage_frame host s (Message.settingsChanged host.settings)
      (some Invalidates.config)
    simp only [step, postUpdatedConfiguration]
    intro hp
    rw [hf.2]
    rw [hf.1] at hp
    exact h hp
  | opMsgReceived e =>
    cases e with
    | none => simpa [step, onMessageReceived] using h
    | some v => cases v <;> simpa [step, onMessageReceived] using h

/-- C5 amended witness: the maintained direction holds initially and survives
a host-initiated disposal of the shown controller. -/
theorem panelImpliesGroup_preserved_witness :
    panelImpliesGroup (initial "settings.html" "materialTheme" "Material Theme") ∧
    panelImpliesGroup (step host0 Op.opPanelDisposed sShown).1 :=
  panelImpliesGroup_preserved "settings.html" "materialTheme" "Material Theme"
    host0 Op.opPanelDisposed sShown (fun _ => by decide)

/-- C6 counterexample: after `show()` the first `dispose()` releases the
disposal unit, but a second `dispose()` releases it again — the source never
clears `disposablePanel`, so later calls are not no-ops against cleared
state. -/
theorem dispose_second_release_cex :
    (dispose sShown).2 = [Effect.releaseGroup 0] ∧
    (dispose (dispose sShown).1).2 = [Effect.releaseGroup 0] := by
  decide

/-- C6 amended: whenever the disposal-unit reference is set, `dispose()`
invokes its release and leaves the whole state (the reference included)
unchanged, so any later `dispose()` or `onPanelDisposed()` invokes the
release again; controller-level idempotence relies on the disposal unit's
own release being idempotent. -/
theorem dispose_releases_when_group_present (s : WebviewEditor) (g : Nat)
    (h : s.disposablePanel = some g) :
    (dispose s).2 = [Effect.releaseGroup g] ∧
    (dispose s).1 = s ∧
    (dispose (dispose s).1).2 = [Effect.releaseGroup g] ∧
    (onPanelDisposed (dispose s).1).2 = [Effect.releaseGroup g] := by
  simp [dispose, onPanelDisposed, h]

/-- C6 amended witness: the shown controller's disposal unit is released by
the first `dispose()` and released again by the second. -/
theorem dispose_releases_when_group_present_witness :
    (dispose sShown).2 = [Effect.releaseGroup 0] ∧
    (dispose sShown).1 = sShown ∧
    (dispose (dispose sShown).1).2 = [Effect.releaseGroup 0] ∧
    (onPanelDisposed (dispose sShown).1).2 = [Effect.releaseGroup 0] :=
  dispose_releases_when_group_present sShown 0 (by decide)

end Webview
